import Mathlib

/-!
Verification of the children's-time-manager desktop utility (`script.py`).

The script runs a `TimeChecker` object: a main polling loop (`check_time`)
that evaluates a schedule of lock windows (`is_time_to_lock`), queries NTP
servers for a trusted time (`get_network_time`), and — guarded by the single
boolean `warning_active` — spawns warning-dialog and countdown threads
(`time_lock_countdown` for schedule triggers, `countdown_check` for drift
triggers) that end in an OS lock call (`lock_windows`).

This file gives a shallow embedding of those functions and proves the
specification's claims about them.  Modelling conventions:

* A time of day at minute precision is a `Nat` in `0..1439` (minutes since
  midnight).  `datetime.strptime(s, "%H:%M")` produces a `datetime` with
  fixed date whose ordering is exactly the ordering of `60*hour + minute`,
  so parsed values are represented by that number directly.
* A clock difference (`(network_time - local_time).total_seconds()`) is an
  `Int` number of seconds; the script's test `time_diff <= 5` on
  `abs(seconds)/60` minutes is equivalent to `|seconds| ≤ 300`.
* Python exceptions are modelled with `Option`/explicit error fields: every
  `try/except` block of the script becomes a total Lean function whose
  result records whether the handler ran (`errorLogged`).
* Thread spawns, dialogs and OS lock calls are modelled as fields of the
  result describing which side effects the code path performs.
-/

/-! ### Python string comparison

`is_time_to_lock` compares the raw window strings with Python's `>`,
which is lexicographic on Unicode code points.  We embed that comparison
directly (rather than reusing one of Lean's `String` orders) so that the
relation used is unambiguously Python's. -/

/-- Python's `<` on strings, on the underlying character lists:
lexicographic comparison by code point. -/
def pyStrLtAux : List Char → List Char → Bool
  | [], [] => false
  | [], _ :: _ => true
  | _ :: _, [] => false
  | a :: as, b :: bs =>
    if a.toNat < b.toNat then true
    else if b.toNat < a.toNat then false
    else pyStrLtAux as bs

/-- Python's `s < t` on strings. -/
def pyStrLt (s t : String) : Bool :=
  pyStrLtAux s.data t.data

/-! ### `datetime.strptime(_, "%H:%M")`

CPython's `_strptime` matches `%H` with the regex `2[0-3]|[0-1]\d|\d`,
then the literal `:`, then `%M` with `[0-5]\d|\d`, and raises `ValueError`
unless the whole string is consumed.  We model the ASCII-digit case (the
configuration format of the script); the parse result is returned as
minutes since midnight. -/

/-- ASCII digit test (`\d` on the script's ASCII configuration strings). -/
def isAsciiDigit (c : Char) : Bool :=
  48 ≤ c.toNat && c.toNat ≤ 57

/-- Numeric value of an ASCII digit character. -/
def digitVal (c : Char) : Nat :=
  c.toNat - 48

/-- Match `%H` (`2[0-3]|[0-1]\d|\d`) at the front of the character list,
returning the hour and the unconsumed rest. -/
def parseH : List Char → Option (Nat × List Char)
  | [] => none
  | [c] => if isAsciiDigit c then some (digitVal c, []) else none
  | c1 :: c2 :: rest =>
    if c1 = '2' && (48 ≤ c2.toNat && c2.toNat ≤ 51) then
      some (20 + digitVal c2, rest)
    else if (48 ≤ c1.toNat && c1.toNat ≤ 49) && isAsciiDigit c2 then
      some (10 * digitVal c1 + digitVal c2, rest)
    else if isAsciiDigit c1 then
      some (digitVal c1, c2 :: rest)
    else none

/-- Match `%M` (`[0-5]\d|\d`) at the front of the character list. -/
def parseM : List Char → Option (Nat × List Char)
  | [] => none
  | [c] => if isAsciiDigit c then some (digitVal c, []) else none
  | c1 :: c2 :: rest =>
    if (48 ≤ c1.toNat && c1.toNat ≤ 53) && isAsciiDigit c2 then
      some (10 * digitVal c1 + digitVal c2, rest)
    else if isAsciiDigit c1 then
      some (digitVal c1, c2 :: rest)
    else none

/-- `datetime.strptime(s, "%H:%M")`, as minutes since midnight; `none`
models the `ValueError` raised on a failed parse. -/
def strptimeHM (s : String) : Option Nat :=
  match parseH s.data with
  | none => none
  | some (h, rest) =>
    match rest with
    | ':' :: rest2 =>
      match parseM rest2 with
      | none => none
      | some (m, rest3) => if rest3 = [] then some (60 * h + m) else none
    | _ => none

/-- The ASCII character of a decimal digit. -/
def digitChar (d : Nat) : Char :=
  Char.ofNat (48 + d % 10)

/-- `datetime.strftime("%H:%M")` of a time of day given in minutes since
midnight: the zero-padded `HH:MM` string. -/
def fmtHM (n : Nat) : String :=
  ⟨[digitChar (n / 60 / 10), digitChar (n / 60 % 10), ':',
    digitChar (n % 60 / 10), digitChar (n % 60 % 10)]⟩

/-! ### Schedule evaluator: `TimeChecker.is_time_to_lock` (script.py 89–115) -/

/-- Observable outcome of `is_time_to_lock`: its boolean return value and
whether its `except` handler ran (logging the error). -/
structure LockCheckResult where
  inside : Bool
  errorLogged : Bool
deriving DecidableEq

/-- The per-window membership test of `is_time_to_lock` (script.py 101–109):
the branch is selected by Python string comparison `start_time > end_time`
on the raw window strings, the bounds are compared on the parsed times. -/
def window_hit (now a b : Nat) (wrap : Bool) : Bool :=
  if wrap then decide (a ≤ now) || decide (now ≤ b)
  else decide (a ≤ now) && decide (now ≤ b)

/-- The `for start_time, end_time in self.lock_times` loop of
`is_time_to_lock` (script.py 95–111).  A window whose strings fail to
parse raises `ValueError`, which the surrounding `try/except` turns into a
logged error and the return value `False` (script.py 112–115), aborting
the loop. -/
def lock_loop (now : Nat) : List (String × String) → LockCheckResult
  | [] => ⟨false, false⟩
  | (s, e) :: rest =>
    match strptimeHM s, strptimeHM e with
    | some a, some b =>
      if window_hit now a b (pyStrLt e s) then ⟨true, false⟩
      else lock_loop now rest
    | _, _ => ⟨false, true⟩

/-- `TimeChecker.is_time_to_lock` (script.py 89–115), parametrised by the
current time of day `now` (minutes since midnight) and the configured
window list. -/
def is_time_to_lock (now : Nat) (windows : List (String × String)) : LockCheckResult :=
  lock_loop now windows

/-- The configured lock windows `self.lock_times` (script.py 30–35). -/
def lock_times : List (String × String) :=
  [("11:00", "13:00"), ("17:00", "19:00"), ("21:00", "23:59"), ("00:00", "07:00")]

/-- Modelled from the spec (section 4.1 / 8): the intended window
membership — inclusive bounds, wrap exactly when `start > end` as times.
This is the comparison point for the refinement claim about
`is_time_to_lock`; it is built from the spec's words, not the code. -/
def window_in_spec (t : Nat) (p : Nat × Nat) : Bool :=
  if p.1 ≤ p.2 then decide (p.1 ≤ t) && decide (t ≤ p.2)
  else decide (p.1 ≤ t) || decide (t ≤ p.2)

/-- Modelled from the spec: `is_within_lock_window(now, windows)` — true
exactly when some window contains `t`. -/
def is_within_lock_window_spec (t : Nat) (ws : List (Nat × Nat)) : Bool :=
  ws.any (window_in_spec t)

/-! ### Lock action: `TimeChecker.lock_windows` (script.py 147–156) -/

/-- Observable outcome of `lock_windows`.  `osLockRaises` says whether the
`ctypes` call `LockWorkStation()` raises (e.g. `ctypes.windll` missing on
a non-Windows host): the reset of `warning_active` on line 153 sits inside
the `try` block *after* that call, so it runs only when the call returns. -/
structure LockOutcome where
  warning_active : Bool
  osLockCalls : Nat
  errorLogged : Bool
deriving DecidableEq

/-- `TimeChecker.lock_windows` (script.py 147–156), acting on the current
value `w` of `self.warning_active`. -/
def lock_windows (osLockRaises : Bool) (w : Bool) : LockOutcome :=
  if osLockRaises then ⟨w, 1, true⟩
  else ⟨false, 1, false⟩

/-! ### Schedule-triggered countdown: `TimeChecker.time_lock_countdown`
(script.py 181–190) -/

/-- `time.sleep(60)` on script.py 185: the schedule countdown length. -/
def schedule_countdown_seconds : Nat := 60

/-- Observable outcome of `time_lock_countdown`. -/
structure ScheduleCountdownResult where
  lockInvocations : Nat
  warning_active : Bool
deriving DecidableEq

/-- `TimeChecker.time_lock_countdown` (script.py 181–190): sleep one
minute, then invoke `lock_windows` unless the stop event is set.  `stop`
is the value of `stop_event.is_set()` observed after the sleep, `w` the
current warning flag. -/
def time_lock_countdown (stop osLockRaises w : Bool) : ScheduleCountdownResult :=
  if stop then ⟨0, w⟩
  else ⟨1, (lock_windows osLockRaises w).warning_active⟩

/-! ### Drift-triggered countdown: `TimeChecker.countdown_check`
(script.py 192–224) -/

/-- `total_checks = 30` (script.py 195). -/
def drift_total_checks : Nat := 30

/-- `time.sleep(10)` between samples (script.py 218). -/
def drift_sample_sleep_seconds : Nat := 10

/-- Observable outcome of `countdown_check`. -/
structure CountdownResult where
  lockInvocations : Nat
  warning_active : Bool
  resyncDialog : Bool
deriving DecidableEq

/-- The sampling loop of `countdown_check` (script.py 196–221) with `fuel`
iterations left and current iteration index `i`.  `samples i` is the
drift in seconds measured at iteration `i` (`none` when
`get_network_time` returned `None`), `stop i` the value of
`stop_event.is_set()` observed at iteration `i`.  When the loop ends, the
stop event is read once more (index 30) before `lock_windows` is invoked
(script.py 220–221).  `time_diff <= 5` minutes is `|seconds| ≤ 300`. -/
def countdown_from (samples : Nat → Option Int) (stop : Nat → Bool) (w osLockRaises : Bool) :
    Nat → Nat → CountdownResult
  | 0, i =>
    if stop i then ⟨0, w, false⟩
    else ⟨1, (lock_windows osLockRaises w).warning_active, false⟩
  | fuel + 1, i =>
    if stop i then ⟨0, w, false⟩
    else
      match samples i with
      | some d =>
        if d.natAbs ≤ 300 then ⟨0, false, true⟩
        else countdown_from samples stop w osLockRaises fuel (i + 1)
      | none => countdown_from samples stop w osLockRaises fuel (i + 1)

/-- `TimeChecker.countdown_check` (script.py 192–224): 30 samples, then a
final stop check and the lock invocation. -/
def countdown_check (samples : Nat → Option Int) (stop : Nat → Bool)
    (w osLockRaises : Bool) : CountdownResult :=
  countdown_from samples stop w osLockRaises drift_total_checks 0

/-! ### Time source client: `TimeChecker.get_network_time`
(script.py 134–145) -/

/-- `timeout=5` of `ntp_client.request(server, timeout=5)` (script.py 139). -/
def ntpTimeout : Nat := 5

/-- The fixed endpoint list `self.ntp_servers` (script.py 22–27). -/
def ntp_servers : List String :=
  ["pool.ntp.org", "time.windows.com", "time.apple.com", "time.google.com"]

/-- Observable outcome of `get_network_time`: the returned timestamp (or
`none` for Python `None`) and the servers whose failure was logged by the
`except` branch (script.py 142–144). -/
structure NetTimeResult where
  result : Option Int
  failuresLogged : List String
deriving DecidableEq

/-- `TimeChecker.get_network_time` (script.py 134–145): try each server in
order; `query s ntpTimeout` is the outcome of the bounded-timeout NTP
request to `s` (an `Except` value: every failure mode of the request or
of the timestamp conversion is an `error`).  The first success is
returned without consulting later servers; each failure is logged and
swallowed; `none` is returned when every server fails. -/
def get_network_time (query : String → Nat → Except String Int) :
    List String → NetTimeResult
  | [] => ⟨none, []⟩
  | s :: rest =>
    match query s ntpTimeout with
    | Except.ok t => ⟨some t, []⟩
    | Except.error _ =>
      let r := get_network_time query rest
      ⟨r.result, s :: r.failuresLogged⟩

/-! ### Main loop: `TimeChecker.check_time` (script.py 226–269) and
`TimeChecker.run` (script.py 271–284) -/

/-- The countdown/dialog task kind spawned by a trigger: schedule-window
lock (`"时间段锁定"`, 1-minute dialog, `time_lock_countdown`) or drift
(`"时间同步"`, 5-minute dialog, `countdown_check`). -/
inductive CountdownKind
  | schedule
  | drift
deriving DecidableEq

/-- Observable outcome of one cycle of the `while` loop of `check_time`:
the warning flag after the cycle, which countdown thread and which dialog
thread the cycle started, how long the cycle sleeps before the next one,
and whether the cycle's `except` handler ran. -/
structure CycleResult where
  warning_active : Bool
  spawnedCountdown : Option CountdownKind
  spawnedDialog : Option CountdownKind
  sleepSeconds : Nat
  errorLogged : Bool
deriving DecidableEq

/-- One cycle of `TimeChecker.check_time` (script.py 228–269).  `warning`
is `self.warning_active` at cycle entry, `now` the current time of day in
minutes, `net` the drift in seconds reported by `get_network_time`
relative to the local clock (`none` for `None`), and `raises` models an
exception escaping the cycle body: the handler on lines 264–266 logs it,
and the `time.sleep(300)` on line 269 runs regardless.  The in-window
branch sleeps 60 seconds and `continue`s (line 237–238), skipping the
300-second sleep; every other completed branch falls through to it. -/
def check_cycle (warning : Bool) (now : Nat) (net : Option Int) (raises : Bool) : CycleResult :=
  if raises then ⟨warning, none, none, 300, true⟩
  else if (is_time_to_lock now lock_times).inside then
    if warning = false then ⟨true, some CountdownKind.schedule, some CountdownKind.schedule, 60, false⟩
    else ⟨warning, none, none, 60, false⟩
  else
    match net with
    | none =>
      if warning = false then ⟨true, some CountdownKind.drift, some CountdownKind.drift, 300, false⟩
      else ⟨warning, none, none, 300, false⟩
    | some d =>
      if 300 < d.natAbs ∧ warning = false then
        ⟨true, some CountdownKind.drift, some CountdownKind.drift, 300, false⟩
      else ⟨warning, none, none, 300, false⟩

/-- An error escaping `check_time` into the `while True` loop of
`TimeChecker.run` (script.py 274–284). -/
inductive EscapedError
  | keyboardInterrupt
  | otherException
deriving DecidableEq

/-- Observable outcome of `run`'s handling of an escaped error. -/
structure RunLoopStep where
  sleepSeconds : Nat
  errorLogged : Bool
deriving DecidableEq

/-- `TimeChecker.run` (script.py 274–284): a `KeyboardInterrupt` escaping
`check_time` is answered with an info log and an immediate retry; any
other `Exception` is logged as an error and followed by `time.sleep(10)`
before the retry. -/
def run_on_escape : EscapedError → RunLoopStep
  | EscapedError.keyboardInterrupt => ⟨0, false⟩
  | EscapedError.otherException => ⟨10, true⟩

/-- A concrete query outcome used to exercise `get_network_time`: the
first two servers time out, the third answers. -/
def witnessQuery : String → Nat → Except String Int :=
  fun s _ => if s = "time.apple.com" then Except.ok 1700000000 else Except.error "timeout"

-- sanity examples (spec section 8)
example : is_within_lock_window_spec (22*60+30) [(21*60, 23*60+59)] = true := by decide
example : is_within_lock_window_spec (20*60+59) [(21*60, 23*60+59)] = false := by decide
example : (is_time_to_lock (12*60+30) lock_times).inside = true := by decide
example : (is_time_to_lock (15*60) lock_times).inside = false := by decide
example : strptimeHM "23:59" = some 1439 := by decide
example : strptimeHM "25:00" = none := by decide
example : strptimeHM "2:30" = some 150 := by decide
example : fmtHM 1439 = "23:59" := by decide
example : pyStrLt "11:00" "13:00" = true := by decide

/-! ## Helper lemmas -/

theorem parseH_fmt : ∀ h : Nat, h < 24 → ∀ rest : List Char,
    parseH (digitChar (h / 10) :: digitChar (h % 10) :: rest) = some (h, rest) := by
  intro h hh rest
  interval_cases h <;> rfl

theorem parseM_fmt : ∀ m < 60,
    parseM [digitChar (m / 10), digitChar (m % 10)] = some (m, []) := by decide

theorem strptimeHM_fmtHM (n : Nat) (hn : n < 1440) : strptimeHM (fmtHM n) = some n := by
  have h1 : n / 60 < 24 := by omega
  have h2 : n % 60 < 60 := by omega
  have e1 := parseH_fmt (n / 60) h1 (':' :: digitChar (n % 60 / 10) :: digitChar (n % 60 % 10) :: [])
  have e2 := parseM_fmt (n % 60) h2
  have hsplit : 60 * (n / 60) + n % 60 = n := by omega
  simp only [strptimeHM, fmtHM]
  rw [e1]
  simp only []
  rw [e2]
  simp [hsplit]

theorem digitChar_toNat : ∀ d < 10, (digitChar d).toNat = 48 + d := by decide

set_option maxHeartbeats 1600000 in
theorem fmtHM_pyStrLt (a b : Nat) (ha : a < 1440) (hb : b < 1440) :
    pyStrLt (fmtHM a) (fmtHM b) = decide (a < b) := by
  have d1 := digitChar_toNat (a / 60 / 10) (by omega)
  have d2 := digitChar_toNat (a / 60 % 10) (by omega)
  have d3 := digitChar_toNat (a % 60 / 10) (by omega)
  have d4 := digitChar_toNat (a % 60 % 10) (by omega)
  have e1 := digitChar_toNat (b / 60 / 10) (by omega)
  have e2 := digitChar_toNat (b / 60 % 10) (by omega)
  have e3 := digitChar_toNat (b % 60 / 10) (by omega)
  have e4 := digitChar_toNat (b % 60 % 10) (by omega)
  have hc : (':').toNat = 58 := rfl
  have step : ∀ (x y : Char) (xs ys : List Char),
      pyStrLtAux (x :: xs) (y :: ys) =
        if x.toNat < y.toNat then true
        else if y.toNat < x.toNat then false
        else pyStrLtAux xs ys := fun _ _ _ _ => rfl
  have base : pyStrLtAux [] [] = false := rfl
  have da : (fmtHM a).data = [digitChar (a / 60 / 10), digitChar (a / 60 % 10), ':',
      digitChar (a % 60 / 10), digitChar (a % 60 % 10)] := rfl
  have db : (fmtHM b).data = [digitChar (b / 60 / 10), digitChar (b / 60 % 10), ':',
      digitChar (b % 60 / 10), digitChar (b % 60 % 10)] := rfl
  show pyStrLtAux (fmtHM a).data (fmtHM b).data = decide (a < b)
  rw [da, db, step, step, step, step, step, base]
  simp only [d1, d2, d3, d4, e1, e2, e3, e4, hc]
  split_ifs <;> symm <;>
    simp only [decide_eq_true_eq, decide_eq_false_iff_not] <;> omega

theorem window_hit_spec (now a b : Nat) (ha : a < 1440) (hb : b < 1440) :
    window_hit now a b (pyStrLt (fmtHM b) (fmtHM a)) = window_in_spec now (a, b) := by
  rw [fmtHM_pyStrLt b a hb ha]
  by_cases hba : b < a
  · have hab : ¬ (a ≤ b) := by omega
    simp [window_hit, window_in_spec, hba, hab]
  · have hab : a ≤ b := by omega
    simp [window_hit, window_in_spec, hba, hab]

theorem lock_loop_fmt_spec (t : Nat) (ws : List (Nat × Nat))
    (hw : ∀ p ∈ ws, p.1 < 1440 ∧ p.2 < 1440) :
    lock_loop t (ws.map fun p => (fmtHM p.1, fmtHM p.2)) =
      ⟨is_within_lock_window_spec t ws, false⟩ := by
  induction ws with
  | nil => rfl
  | cons p rest ih =>
    obtain ⟨pa, pb⟩ := p
    obtain ⟨h1, h2⟩ := hw (pa, pb) (by simp)
    have ihr := ih fun q hq => hw q (by simp [hq])
    simp only [List.map_cons, lock_loop, strptimeHM_fmtHM pa h1, strptimeHM_fmtHM pb h2]
    rw [window_hit_spec t pa pb h1 h2]
    by_cases hhit : window_in_spec t (pa, pb)
    · simp [is_within_lock_window_spec, hhit]
    · simp [is_within_lock_window_spec, hhit, ihr]

/-! ## Claims -/

/-- Claim C1: for every current time `t` (hour:minute precision) and every
configured window `(s, e)` in `HH:MM` form, the schedule evaluator
`is_time_to_lock` reports `t` inside a non-wrapping window (`s ≤ e`)
exactly when `s ≤ t ≤ e` (both bounds inclusive), inside a wrapping
window (`s > e`) exactly when `t ≥ s` or `t ≤ e`, returns true as soon
as a window of the list matches and false when none does (and logs no
error on well-formed windows).  Windows are quantified as times rendered
by the `HH:MM` formatter `fmtHM`; `is_within_lock_window_spec` is the
spec-side description it is proved equal to. -/
theorem claim_C1_schedule_window (t : Nat) (ws : List (Nat × Nat))
    (hw : ∀ p ∈ ws, p.1 < 1440 ∧ p.2 < 1440) :
    is_time_to_lock t (ws.map fun p => (fmtHM p.1, fmtHM p.2)) =
      ⟨is_within_lock_window_spec t ws, false⟩ :=
  lock_loop_fmt_spec t ws hw

/-- Witness for C1 at the spec's own example: 22:30 and the window
21:00–23:59. -/
theorem claim_C1_schedule_window_witness :
    is_time_to_lock 1350 ([((1260 : Nat), (1439 : Nat))].map fun p => (fmtHM p.1, fmtHM p.2)) =
      ⟨is_within_lock_window_spec 1350 [(1260, 1439)], false⟩ ∧
    is_within_lock_window_spec 1350 [(1260, 1439)] = true :=
  ⟨claim_C1_schedule_window 1350 [(1260, 1439)] (by decide), by decide⟩

theorem countdown_from_expiry (samples : Nat → Option Int) (stop : Nat → Bool)
    (w osLockRaises : Bool) :
    ∀ fuel i, (∀ j, i ≤ j → j ≤ i + fuel → stop j = false) →
      (∀ j, i ≤ j → j < i + fuel → ∀ d, samples j = some d → 300 < d.natAbs) →
      countdown_from samples stop w osLockRaises fuel i =
        ⟨1, (lock_windows osLockRaises w).warning_active, false⟩ := by
  intro fuel
  induction fuel with
  | zero =>
    intro i hs _
    simp [countdown_from, hs i le_rfl (by omega)]
  | succ f ih =>
    intro i hs hb
    have hsi : stop i = false := hs i le_rfl (by omega)
    cases hsam : samples i with
    | none =>
      simp only [countdown_from, hsi, Bool.false_eq_true, if_false, hsam]
      exact ih (i + 1) (fun j h1 h2 => hs j (by omega) (by omega))
        (fun j h1 h2 => hb j (by omega) (by omega))
    | some d =>
      have hdd : 300 < d.natAbs := hb i le_rfl (by omega) d hsam
      simp only [countdown_from, hsi, Bool.false_eq_true, if_false, hsam]
      rw [if_neg (by omega)]
      exact ih (i + 1) (fun j h1 h2 => hs j (by omega) (by omega))
        (fun j h1 h2 => hb j (by omega) (by omega))

theorem countdown_from_resync (samples : Nat → Option Int) (stop : Nat → Bool)
    (w osLockRaises : Bool) :
    ∀ fuel i k, i ≤ k → k < i + fuel →
      (∀ j, i ≤ j → j ≤ k → stop j = false) →
      (∀ j, i ≤ j → j < k → ∀ d, samples j = some d → 300 < d.natAbs) →
      ∀ d, samples k = some d → d.natAbs ≤ 300 →
      countdown_from samples stop w osLockRaises fuel i = ⟨0, false, true⟩ := by
  intro fuel
  induction fuel with
  | zero => intro i k h1 h2; omega
  | succ f ih =>
    intro i k hik hkf hs hb d hd hsmall
    have hsi : stop i = false := hs i le_rfl hik
    by_cases hik' : i = k
    · subst hik'
      simp only [countdown_from, hsi, Bool.false_eq_true, if_false, hd]
      simp [hsmall]
    · have hlt : i < k := by omega
      cases hsam : samples i with
      | none =>
        simp only [countdown_from, hsi, Bool.false_eq_true, if_false, hsam]
        exact ih (i + 1) k (by omega) (by omega)
          (fun j ha hb' => hs j (by omega) hb')
          (fun j ha hb' => hb j (by omega) hb') d hd hsmall
      | some d' =>
        have hdd : 300 < d'.natAbs := hb i le_rfl hlt d' hsam
        simp only [countdown_from, hsi, Bool.false_eq_true, if_false, hsam]
        rw [if_neg (by omega)]
        exact ih (i + 1) k (by omega) (by omega)
          (fun j ha hb' => hs j (by omega) hb')
          (fun j ha hb' => hb j (by omega) hb') d hd hsmall

/-- Claim C2: in the drift-triggered countdown, if all 30 samples (taken
at 10-second increments over 5 minutes, each re-querying the time source)
show a drift above 5 minutes (`|seconds| > 300`) or an unavailable source
(`none`), and the stop signal is never set, then exactly one lock
invocation occurs, at the end of the countdown. -/
theorem claim_C2_drift_expiry (samples : Nat → Option Int) (stop : Nat → Bool)
    (w osLockRaises : Bool)
    (hstop : ∀ i ≤ 30, stop i = false)
    (hbad : ∀ i < 30, ∀ d, samples i = some d → 300 < d.natAbs) :
    (countdown_check samples stop w osLockRaises).lockInvocations = 1 ∧
    drift_total_checks = 30 ∧ drift_sample_sleep_seconds = 10 := by
  refine ⟨?_, rfl, rfl⟩
  rw [countdown_check,
    countdown_from_expiry samples stop w osLockRaises drift_total_checks 0
      (fun j h1 h2 => hstop j (by simpa [drift_total_checks] using h2))
      (fun j h1 h2 d hd => hbad j (by simpa [drift_total_checks] using h2) d hd)]

/-- Witness for C2: the source unavailable at every sample and the stop
signal never set. -/
theorem claim_C2_drift_expiry_witness :
    (countdown_check (fun _ => none) (fun _ => false) true false).lockInvocations = 1 ∧
    drift_total_checks = 30 ∧ drift_sample_sleep_seconds = 10 :=
  claim_C2_drift_expiry (fun _ => none) (fun _ => false) true false
    (fun _ _ => rfl) (fun i _ d hd => by simp at hd)

/-- Claim C3: once the drift warning is active, a sample during the
countdown showing a drift of at most 5 minutes (`|seconds| ≤ 300`)
cancels the countdown: no lock invocation occurs in that cycle, the
warning flag is reset to false, and the resync confirmation dialog is
displayed. -/
theorem claim_C3_resync_cancel (samples : Nat → Option Int) (stop : Nat → Bool)
    (w osLockRaises : Bool) (k : Nat) (hk : k < 30)
    (hstop : ∀ i ≤ k, stop i = false)
    (hbad : ∀ i < k, ∀ d, samples i = some d → 300 < d.natAbs)
    (d : Int) (hd : samples k = some d) (hsmall : d.natAbs ≤ 300) :
    countdown_check samples stop w osLockRaises = ⟨0, false, true⟩ := by
  rw [countdown_check]
  exact countdown_from_resync samples stop w osLockRaises drift_total_checks 0 k
    (by omega) (by simpa [drift_total_checks] using hk)
    (fun j _ hj => hstop j hj) (fun j _ hj => hbad j hj) d hd hsmall

/-- Witness for C3: the very first sample reads a zero drift while the
warning is active. -/
theorem claim_C3_resync_cancel_witness :
    countdown_check (fun _ => some 0) (fun _ => false) true false = ⟨0, false, true⟩ :=
  claim_C3_resync_cancel (fun _ => some 0) (fun _ => false) true false 0 (by omega)
    (fun _ _ => rfl) (fun i hi => absurd hi (Nat.not_lt_zero i)) 0 rfl (by decide)

/-- Claim C4: while the warning flag is true, a repeated trigger
condition in the main check loop — a schedule-window match, a drift above
5 minutes, or an unavailable time source — spawns no second countdown
task and no second dialog task, and the flag stays set: the flag guards
re-entry on every trigger path. -/
theorem claim_C4_reentry_guard (now : Nat) (net : Option Int) (raises : Bool) :
    (check_cycle true now net raises).spawnedCountdown = none ∧
    (check_cycle true now net raises).spawnedDialog = none ∧
    (check_cycle true now net raises).warning_active = true := by
  cases raises with
  | true => exact ⟨rfl, rfl, rfl⟩
  | false =>
    unfold check_cycle
    cases hin : (is_time_to_lock now lock_times).inside with
    | true => simp
    | false =>
      cases net with
      | none => simp
      | some d => simp

/-- Claim C5: in a main-loop cycle outside every lock window with no
warning active and no error, the drift warning path (its countdown and
dialog) is triggered exactly when the trusted time is unavailable or the
drift exceeds 5 minutes (`|seconds| > 300`). -/
theorem claim_C5_drift_trigger (now : Nat) (net : Option Int)
    (hout : (is_time_to_lock now lock_times).inside = false) :
    ((check_cycle false now net false).spawnedCountdown = some CountdownKind.drift ↔
      net = none ∨ ∃ d, net = some d ∧ 300 < d.natAbs) ∧
    (check_cycle false now net false).spawnedDialog =
      (check_cycle false now net false).spawnedCountdown ∧
    ((check_cycle false now net false).spawnedCountdown = some CountdownKind.drift →
      (check_cycle false now net false).warning_active = true) := by
  unfold check_cycle
  cases net with
  | none => simp [hout]
  | some d =>
    by_cases hdd : 300 < d.natAbs
    · simp [hout, hdd]
    · simp [hout, hdd]

/-- Witness for C5: 15:00 is outside every configured window; a trusted
time 10 minutes ahead (600 seconds) triggers the drift path, 3 minutes
ahead (180 seconds) does not. -/
theorem claim_C5_drift_trigger_witness :
    (is_time_to_lock 900 lock_times).inside = false ∧
    (check_cycle false 900 (some 600) false).spawnedCountdown = some CountdownKind.drift ∧
    (check_cycle false 900 (some 180) false).spawnedCountdown = none := by
  refine ⟨by decide, ?_, by decide⟩
  exact (claim_C5_drift_trigger 900 (some 600) (by decide)).1.mpr
    (Or.inr ⟨600, rfl, by decide⟩)

theorem get_network_time_none_iff (query : String → Nat → Except String Int) :
    ∀ servers : List String, (get_network_time query servers).result = none ↔
      ∀ s ∈ servers, ∃ e, query s ntpTimeout = Except.error e := by
  intro servers
  induction servers with
  | nil => simp [get_network_time]
  | cons s rest ih =>
    cases hq : query s ntpTimeout with
    | ok t =>
      simp only [get_network_time, hq]
      constructor
      · intro h; exact absurd h (by simp)
      · intro h
        obtain ⟨e, he⟩ := h s (by simp)
        rw [hq] at he
        exact absurd he (by simp)
    | error e =>
      simp only [get_network_time, hq]
      constructor
      · intro h u hu
        rcases List.mem_cons.mp hu with rfl | hu'
        · exact ⟨e, hq⟩
        · exact (ih.mp h) u hu'
      · intro h
        exact ih.mpr fun u hu => h u (List.mem_cons_of_mem _ hu)

theorem get_network_time_first_success (query : String → Nat → Except String Int) :
    ∀ (servers : List String) (t : Int),
      (get_network_time query servers).result = some t →
      ∃ pre srv post, servers = pre ++ srv :: post ∧
        (get_network_time query servers).failuresLogged = pre ∧
        (∀ u ∈ pre, ∃ e, query u ntpTimeout = Except.error e) ∧
        query srv ntpTimeout = Except.ok t := by
  intro servers
  induction servers with
  | nil => intro t h; exact absurd h (by simp [get_network_time])
  | cons s rest ih =>
    intro t h
    cases hq : query s ntpTimeout with
    | ok t' =>
      have ht' : t' = t := by
        simp only [get_network_time, hq] at h
        exact Option.some_injective _ h
      subst ht'
      exact ⟨[], s, rest, rfl, by simp [get_network_time, hq], by simp, hq⟩
    | error e =>
      have hres : (get_network_time query rest).result = some t := by
        simpa only [get_network_time, hq] using h
      obtain ⟨pre, srv, post, hsplit, hlog, hpre, hok⟩ := ih t hres
      refine ⟨s :: pre, srv, post, by simp [hsplit], ?_, ?_, hok⟩
      · simp [get_network_time, hq, hlog]
      · intro u hu
        rcases List.mem_cons.mp hu with rfl | hu'
        · exact ⟨e, hq⟩
        · exact hpre u hu'

/-- Claim C6: the time source client tries the fixed ordered endpoint
list with a bounded 5-second timeout on each request, returns the
timestamp of the first endpoint that succeeds without consulting later
endpoints (the failures logged are exactly the endpoints before it), and
returns `none` exactly when every endpoint fails — as a total function it
never propagates an endpoint failure to the caller. -/
theorem claim_C6_time_source (query : String → Nat → Except String Int) :
    ntpTimeout = 5 ∧
    ((get_network_time query ntp_servers).result = none ↔
      ∀ s ∈ ntp_servers, ∃ e, query s ntpTimeout = Except.error e) ∧
    (∀ t, (get_network_time query ntp_servers).result = some t →
      ∃ pre srv post, ntp_servers = pre ++ srv :: post ∧
        (get_network_time query ntp_servers).failuresLogged = pre ∧
        (∀ u ∈ pre, ∃ e, query u ntpTimeout = Except.error e) ∧
        query srv ntpTimeout = Except.ok t) :=
  ⟨rfl, get_network_time_none_iff query ntp_servers,
    fun t => get_network_time_first_success query ntp_servers t⟩

/-- Witness for C6: the first two servers fail, the third answers; the
result is the third server's timestamp and the logged failures are
exactly the first two servers. -/
theorem claim_C6_time_source_witness :
    (get_network_time witnessQuery ntp_servers).result = some 1700000000 ∧
    (∃ pre srv post, ntp_servers = pre ++ srv :: post ∧
      (get_network_time witnessQuery ntp_servers).failuresLogged = pre ∧
      (∀ u ∈ pre, ∃ e, witnessQuery u ntpTimeout = Except.error e) ∧
      witnessQuery srv ntpTimeout = Except.ok 1700000000) :=
  ⟨by decide, (claim_C6_time_source witnessQuery).2.2 1700000000 (by decide)⟩

/-- Claim C7: the schedule-triggered countdown lasts one minute
(`time.sleep(60)`), and on expiry the lock action is invoked
unconditionally unless the stop signal was set — for every combination of
the remaining inputs (lock-call outcome, warning flag) the number of lock
invocations is 1 when the stop signal is clear and 0 when it is set;
no re-check of the window can prevent the lock. -/
theorem claim_C7_schedule_countdown (stop osLockRaises w : Bool) :
    schedule_countdown_seconds = 60 ∧
    (time_lock_countdown stop osLockRaises w).lockInvocations =
      (if stop then 0 else 1) := by
  cases stop <;> exact ⟨rfl, rfl⟩

/-- Counterexample to claim C8 as stated: a cycle of `check_time` whose
body raises is logged by the handler on script.py 264–266 and then sleeps
300 seconds (the unconditional `time.sleep(300)` on line 269), not 10
seconds. -/
theorem claim_C8_counterexample :
    (check_cycle false 900 none true).errorLogged = true ∧
    (check_cycle false 900 none true).sleepSeconds = 300 ∧
    (check_cycle false 900 none true).sleepSeconds ≠ 10 := by decide

/-- Claim C8 as amended: on an uncaught error in a main-loop check cycle
the error is logged and the loop sleeps 300 seconds (the normal
inter-cycle delay) before retrying; a 10-second backoff occurs only in
the outer `run` loop, when the check loop itself terminates with an
exception. -/
theorem claim_C8_amended_backoff (w : Bool) (now : Nat) (net : Option Int) :
    (check_cycle w now net true).errorLogged = true ∧
    (check_cycle w now net true).sleepSeconds = 300 ∧
    run_on_escape EscapedError.otherException = ⟨10, true⟩ :=
  ⟨rfl, rfl, rfl⟩

/-- Counterexample to claim C9 as stated: an invocation of the lock
action in which the OS lock call raises leaves the warning flag set
(the reset on script.py 153 is skipped when line 151 raises), so the flag
is not reset after every invocation. -/
theorem claim_C9_counterexample :
    (lock_windows true true).osLockCalls = 1 ∧
    (lock_windows true true).warning_active = true ∧
    (lock_windows true true).errorLogged = true := by decide

/-- Claim C9 as amended: after a lock invocation whose OS call returns,
the warning flag is reset to false so a later check cycle can re-trigger;
when the OS lock call raises, the failure is logged and the lock is not
retried within the cycle (exactly one OS call either way), but the
warning flag keeps its previous value — it is not reset, so while it
remains set the next scheduled check will not re-trigger. -/
theorem claim_C9_amended_flag_reset (w : Bool) :
    (lock_windows false w).warning_active = false ∧
    (lock_windows true w).warning_active = w ∧
    (lock_windows true w).errorLogged = true ∧
    (lock_windows true w).osLockCalls = 1 ∧
    (lock_windows false w).osLockCalls = 1 :=
  ⟨rfl, rfl, rfl, rfl, rfl⟩

theorem lock_loop_error_inside (now : Nat) :
    ∀ ws : List (String × String),
      (lock_loop now ws).errorLogged = true → (lock_loop now ws).inside = false := by
  intro ws
  induction ws with
  | nil => intro h; exact absurd h (by simp [lock_loop])
  | cons p rest ih =>
    obtain ⟨s, e⟩ := p
    intro h
    cases hs : strptimeHM s with
    | none => simp [lock_loop, hs]
    | some a =>
      cases he : strptimeHM e with
      | none => simp [lock_loop, hs, he]
      | some b =>
        by_cases hhit : window_hit now a b (pyStrLt e s) = true
        · simp only [lock_loop, hs, he, hhit, if_true] at h
          exact absurd h Bool.false_ne_true
        · simp only [lock_loop, hs, he, hhit, Bool.false_eq_true, if_false] at h ⊢
          exact ih h

/-- Claim C10: the schedule evaluator never propagates an exception: it
is a total function, and whenever an error occurs during window
evaluation (a malformed window string failing to parse) the exception is
caught and logged (`errorLogged`) and the function returns false — it
fails open to "not inside a lock window". -/
theorem claim_C10_fail_open (now : Nat) (ws : List (String × String))
    (h : (is_time_to_lock now ws).errorLogged = true) :
    (is_time_to_lock now ws).inside = false :=
  lock_loop_error_inside now ws h

/-- Witness for C10: at 12:00 the malformed first window `"25:00"` aborts
the evaluation with a logged error and the result is false, even though
the later window 11:00–13:00 contains 12:00. -/
theorem claim_C10_fail_open_witness :
    (is_time_to_lock 720 [("25:00", "26:00"), ("11:00", "13:00")]).errorLogged = true ∧
    (is_time_to_lock 720 [("25:00", "26:00"), ("11:00", "13:00")]).inside = false ∧
    (is_time_to_lock 720 [("11:00", "13:00")]).inside = true :=
  ⟨by decide, claim_C10_fail_open 720 _ (by decide), by decide⟩

/-- Witness for C4: at 11:30 (inside a window) with an available network
time drifting 10 minutes, an active warning spawns nothing. -/
theorem claim_C4_reentry_guard_witness :
    (check_cycle true 690 (some 600) false).spawnedCountdown = none ∧
    (check_cycle true 690 (some 600) false).spawnedDialog = none ∧
    (check_cycle true 690 (some 600) false).warning_active = true :=
  claim_C4_reentry_guard 690 (some 600) false

/-- Witness for C7: stop signal clear, OS lock call succeeding. -/
theorem claim_C7_schedule_countdown_witness :
    schedule_countdown_seconds = 60 ∧
    (time_lock_countdown false false true).lockInvocations = (if false then 0 else 1) :=
  claim_C7_schedule_countdown false false true

/-- Witness for the amended C8 at a concrete erroring cycle. -/
theorem claim_C8_amended_backoff_witness :
    (check_cycle true 690 none true).errorLogged = true ∧
    (check_cycle true 690 none true).sleepSeconds = 300 ∧
    run_on_escape EscapedError.otherException = ⟨10, true⟩ :=
  claim_C8_amended_backoff true 690 none

/-- Witness for the amended C9 with the warning flag set. -/
theorem claim_C9_amended_flag_reset_witness :
    (lock_windows false true).warning_active = false ∧
    (lock_windows true true).warning_active = true ∧
    (lock_windows true true).errorLogged = true ∧
    (lock_windows true true).osLockCalls = 1 ∧
    (lock_windows false true).osLockCalls = 1 :=
  claim_C9_amended_flag_reset true
